import Mathlib

/-!
Shallow embedding of the `asyncio_helpers` package (module
`asyncio_helpers/__init__.py`) and proofs about the claims of its
specification.  Python coroutines are modelled by the outcome of awaiting
them to completion (`Except Exn α`); the per-thread event-loop binding is
explicit state (`ThreadCtx`); cross-thread events (`threading.Event`,
`asyncio.Event`) are modelled by explicit state records, and where a claim
is about the order of writes, by an explicit write trace.
-/

namespace AsyncioHelpers

/-- Python exception values relevant to the embedded code. -/
inductive Exn where
  | typeError
  | attributeError (attr : String)
  | runtimeError (msg : String)
  | valueError (msg : String)
  | cancelledError
  deriving DecidableEq, BEq

/-- Kind of asyncio event loop implementation.  On Windows the selector loop
supports only sockets; the proactor loop also supports file-descriptor I/O. -/
inductive LoopKind where
  | selector
  | proactor
  deriving DecidableEq, BEq

/-- Result of Python `platform.system()`, as consulted by the source. -/
inductive Platform where
  | windows
  | posix
  deriving DecidableEq, BEq

/-- An asyncio event loop: object identity (`id`), implementation kind, and
whether `loop.is_running()` currently holds. -/
structure Loop where
  id : Nat
  kind : LoopKind
  running : Bool
  deriving DecidableEq, BEq

/-- Per-thread asyncio context: the loop bound to the thread by
`asyncio.set_event_loop`, if any. -/
structure ThreadCtx where
  boundLoop : Option Loop
  deriving DecidableEq, BEq

/-- Helper: does the second character list start with the first? -/
def charListStartsWith : List Char → List Char → Bool
  | [], _ => true
  | _ :: _, [] => false
  | a :: as, b :: bs => a == b && charListStartsWith as bs

/-- Helper: does a character list contain another as a contiguous run? -/
def charListContains (pat : List Char) : List Char → Bool
  | [] => pat.isEmpty
  | b :: bs => charListStartsWith pat (b :: bs) || charListContains pat bs

/-- Python `pat in s` on strings: substring containment. -/
def strContains (s pat : String) : Bool :=
  charListContains pat.data s.data

/-- Message of the RuntimeError that `asyncio.get_event_loop` raises on a
thread with no bound loop; the source tests it by substring. -/
def noCurrentLoopMsg : String := "There is no current event loop in thread."

/-- Model of `asyncio.get_event_loop()`: returns the loop bound to the
calling thread's context, raising RuntimeError when none is bound. -/
def get_event_loop (ctx : ThreadCtx) : Except Exn Loop :=
  match ctx.boundLoop with
  | some l => Except.ok l
  | none => Except.error (Exn.runtimeError noCurrentLoopMsg)

/-- Model of `asyncio.new_event_loop()`: constructs a loop of whatever kind
the platform's default event-loop policy provides. -/
def new_event_loop (defaultKind : LoopKind) : LoopKind :=
  defaultKind

/-- Source `new_file_event_loop`: its body is exactly
`return asyncio.new_event_loop()`.  The ambient platform is passed for
comparison with the documented behaviour; the body does not consult it. -/
def new_file_event_loop (p : Platform) (defaultKind : LoopKind) : LoopKind :=
  match p with
  | _ => new_event_loop defaultKind

/-- Modelled from the spec: the documented behaviour of
`new_file_event_loop` — on Windows, where the default selector loop supports
only sockets, construct a proactor-style loop instead of the default. -/
def new_file_event_loop_spec (p : Platform) (defaultKind : LoopKind) : LoopKind :=
  if p == Platform.windows then LoopKind.proactor else defaultKind

/-- Source `ensure_event_loop`, factored over the result of
`asyncio.get_event_loop()`: return the obtained loop; on RuntimeError whose
message contains the no-current-loop text, create a loop via
`new_file_event_loop` and bind it with `asyncio.set_event_loop`; re-raise
any other error. -/
def ensure_event_loop_handle (got : Except Exn Loop) (fresh : Loop)
    (ctx : ThreadCtx) : Except Exn (Loop × ThreadCtx) :=
  match got with
  | Except.ok l => Except.ok (l, ctx)
  | Except.error (Exn.runtimeError msg) =>
      if strContains msg "There is no current event loop" then
        Except.ok (fresh, ThreadCtx.mk (some fresh))
      else
        Except.error (Exn.runtimeError msg)
  | Except.error e => Except.error e

/-- Source `ensure_event_loop`: the freshly created loop (used only on the
no-current-loop path) gets object identity `freshId`, the kind produced by
`new_file_event_loop`, and is not running. -/
def ensure_event_loop (ctx : ThreadCtx) (p : Platform) (dk : LoopKind)
    (freshId : Nat) : Except Exn (Loop × ThreadCtx) :=
  ensure_event_loop_handle (get_event_loop ctx)
    (Loop.mk freshId (new_file_event_loop p dk) false) ctx

/-- Claim C5: calling `ensure_event_loop` twice on the same thread without
explicit replacement returns the identical Loop instance — the first call
creates and binds a loop if none exists, and the second call (whatever
platform parameters it sees) returns that same bound loop and leaves the
thread context unchanged. -/
theorem ensure_event_loop_idempotent (ctx : ThreadCtx) (p p2 : Platform)
    (dk dk2 : LoopKind) (n n2 : Nat) (l : Loop) (ctx2 : ThreadCtx)
    (h : ensure_event_loop ctx p dk n = Except.ok (l, ctx2)) :
    ensure_event_loop ctx2 p2 dk2 n2 = Except.ok (l, ctx2) := by
  cases ctx with
  | mk bound =>
    cases bound with
    | some l0 =>
        have e0 : ensure_event_loop (ThreadCtx.mk (some l0)) p dk n
            = Except.ok (l0, ThreadCtx.mk (some l0)) := rfl
        rw [e0] at h
        simp only [Except.ok.injEq, Prod.mk.injEq] at h
        obtain ⟨h1, h2⟩ := h
        subst h1
        subst h2
        rfl
    | none =>
        have e1 : ensure_event_loop (ThreadCtx.mk none) p dk n
            = Except.ok (Loop.mk n (new_file_event_loop p dk) false,
                ThreadCtx.mk (some (Loop.mk n (new_file_event_loop p dk) false))) := rfl
        rw [e1] at h
        simp only [Except.ok.injEq, Prod.mk.injEq] at h
        obtain ⟨h1, h2⟩ := h
        subst h1
        subst h2
        rfl

/-- Witness for C5 at a concrete input: a thread with no bound loop gets
loop 3 created and bound; the second call returns the same loop. -/
theorem ensure_event_loop_idempotent_witness :
    ensure_event_loop (ThreadCtx.mk none) Platform.posix LoopKind.selector 3
        = Except.ok (Loop.mk 3 LoopKind.selector false,
            ThreadCtx.mk (some (Loop.mk 3 LoopKind.selector false)))
    ∧ ensure_event_loop (ThreadCtx.mk (some (Loop.mk 3 LoopKind.selector false)))
          Platform.windows LoopKind.proactor 9
        = Except.ok (Loop.mk 3 LoopKind.selector false,
            ThreadCtx.mk (some (Loop.mk 3 LoopKind.selector false))) :=
  ⟨rfl,
    ensure_event_loop_idempotent (ThreadCtx.mk none) Platform.posix Platform.windows
      LoopKind.selector LoopKind.proactor 3 9 (Loop.mk 3 LoopKind.selector false)
      (ThreadCtx.mk (some (Loop.mk 3 LoopKind.selector false))) rfl⟩

/-- Claim C10: `ensure_event_loop` recovers (creating and binding a fresh
loop) exactly the RuntimeError whose message contains the text
`There is no current event loop`; any other RuntimeError raised while
obtaining the thread's loop is propagated unchanged. -/
theorem ensure_event_loop_recovery_filter (msg msg2 : String)
    (fresh fresh2 : Loop) (ctx ctx2 : ThreadCtx)
    (h : strContains msg "There is no current event loop" = false)
    (h2 : strContains msg2 "There is no current event loop" = true) :
    ensure_event_loop_handle (Except.error (Exn.runtimeError msg)) fresh ctx
        = Except.error (Exn.runtimeError msg)
    ∧ ensure_event_loop_handle (Except.error (Exn.runtimeError msg2)) fresh2 ctx2
        = Except.ok (fresh2, ThreadCtx.mk (some fresh2)) := by
  constructor
  · simp [ensure_event_loop_handle, h]
  · simp [ensure_event_loop_handle, h2]

/-- Witness for C10 at concrete inputs: the message of a closed event loop
is re-raised; the no-current-loop message triggers creation and binding. -/
theorem ensure_event_loop_recovery_filter_witness :
    strContains "Event loop is closed" "There is no current event loop" = false
    ∧ strContains noCurrentLoopMsg "There is no current event loop" = true
    ∧ (ensure_event_loop_handle
          (Except.error (Exn.runtimeError "Event loop is closed"))
          (Loop.mk 0 LoopKind.selector false) (ThreadCtx.mk none)
        = Except.error (Exn.runtimeError "Event loop is closed")
      ∧ ensure_event_loop_handle
          (Except.error (Exn.runtimeError noCurrentLoopMsg))
          (Loop.mk 1 LoopKind.proactor false) (ThreadCtx.mk none)
        = Except.ok (Loop.mk 1 LoopKind.proactor false,
            ThreadCtx.mk (some (Loop.mk 1 LoopKind.proactor false)))) :=
  ⟨by decide, by decide,
    ensure_event_loop_recovery_filter "Event loop is closed" noCurrentLoopMsg
      (Loop.mk 0 LoopKind.selector false) (Loop.mk 1 LoopKind.proactor false)
      (ThreadCtx.mk none) (ThreadCtx.mk none) (by decide) (by decide)⟩

/-- A Python coroutine-producing function, seen through the result of
awaiting the produced coroutine to completion: positional arguments and
keyword arguments in, a value or a raised exception out.  Arity errors of
the call itself are `Exn.typeError`, as in Python. -/
abbrev PyCoroFn (α : Type) := List α → List (String × α) → Except Exn α

/-- Python coroutine `async def identity(a): return a` — one required
positional parameter, bindable positionally or by keyword. -/
def identity {α : Type} : PyCoroFn α := fun args kwargs =>
  match args, kwargs with
  | [a], [] => Except.ok a
  | [], [(k, a)] => if k == "a" then Except.ok a else Except.error Exn.typeError
  | _, _ => Except.error Exn.typeError

/-- Python coroutine `async def raising(a): raise ValueError('x')` — one
required positional parameter; raises when it runs. -/
def raising {α : Type} : PyCoroFn α := fun args kwargs =>
  match args, kwargs with
  | [_], [] => Except.error (Exn.valueError "x")
  | _, _ => Except.error Exn.typeError

/-- Python coroutine `async def raising0(): raise ValueError('x')` — no
parameters; raises when it runs. -/
def raising0 {α : Type} : PyCoroFn α := fun args kwargs =>
  match args, kwargs with
  | [], [] => Except.error (Exn.valueError "x")
  | _, _ => Except.error Exn.typeError

/-- The `thread_required` decision of `with_loop.wrapped`: isolate when the
caller's loop is already running, or when on Windows the bound loop is not
a proactor loop. -/
def thread_required (p : Platform) (loop : Loop) : Bool :=
  loop.running || (p == Platform.windows && !(loop.kind == LoopKind.proactor))

/-- State of the `finished` signal (`threading.Event` plus the `result` and
`error` attributes assigned by `with_loop.wrapped._run`). -/
structure Finished (α : Type) where
  result : Option α
  error : Option Exn
  flag : Bool
  deriving DecidableEq

/-- Write events, used to state in which order `_run` and `_wrapped` touch
their signals. -/
inductive Ev where
  | writeResult
  | writeError
  | closeLoop
  | setFlag
  | clearStarted
  | attachLoop
  | setStarted
  | runCoroStart
  deriving DecidableEq, BEq

/-- Source `with_loop.wrapped._run`, given the outcome of running the
coroutine to completion on the background thread's loop: on success assign
`finished.result` then `finished.error = None`; on an exception assign
`finished.result = None` then `finished.error`; close the loop; finally
call `finished.set()`.  Returns the final signal state and the ordered
write trace. -/
def with_loop_run {α : Type} (out : Except Exn α) : Finished α × List Ev :=
  match out with
  | Except.ok v =>
      (Finished.mk (some v) none true,
        [Ev.writeResult, Ev.writeError, Ev.closeLoop, Ev.setFlag])
  | Except.error e =>
      (Finished.mk none (some e) true,
        [Ev.writeResult, Ev.writeError, Ev.closeLoop, Ev.setFlag])

/-- What `with_loop.wrapped` does after `finished.wait()` returns: re-raise
`finished.error` when it is set, otherwise return `finished.result`. -/
def finished_read {α : Type} (fin : Finished α) : Except Exn (Option α) :=
  match fin.error with
  | some e => Except.error e
  | none => Except.ok fin.result

/-- Source `with_loop.wrapped`: with `loop` the calling thread's loop (from
`ensure_event_loop`), either isolate — spawn a daemon thread running
`_run(func(*args, **kwargs))`, wait on `finished`, then read it — or run
directly on the caller's loop via `loop.run_until_complete(func(**kwargs))`
(the source passes only the keyword arguments there). -/
def with_loop_wrapped {α : Type} (p : Platform) (loop : Loop) (f : PyCoroFn α)
    (args : List α) (kwargs : List (String × α)) : Except Exn (Option α) :=
  if thread_required p loop then
    finished_read (with_loop_run (f args kwargs)).1
  else
    (f [] kwargs).map some

/-- Claim C1 (failing input): `with_loop(identity)(x)` on the direct path
(idle selector loop, non-Windows platform) raises TypeError because
`wrapped` invokes `func(**kwargs)`, discarding the positional argument;
the isolated-thread path (running loop) returns `x` as documented.  The
claim, `with_loop`'s own docstring example `assert foo(a) == a`, and the
repository's `test_with_loop` all expect `x` on both paths. -/
theorem with_loop_direct_path_drops_args :
    with_loop_wrapped Platform.posix (Loop.mk 0 LoopKind.selector false)
        (@identity Nat) [5] [] = Except.error Exn.typeError
    ∧ with_loop_wrapped Platform.posix (Loop.mk 0 LoopKind.selector true)
        (@identity Nat) [5] [] = Except.ok (some 5) :=
  ⟨rfl, rfl⟩

/-- Claim C4: for a no-argument coroutine that raises ValueError, both the
direct path and the isolation path re-raise exactly that failure (on the
isolation path it is captured into `finished.error` and re-raised after the
wait, never swallowed).  For a coroutine with a positional parameter,
however, the direct path raises TypeError (the argument-dropping slip of
`func(**kwargs)`) instead of the coroutine's own ValueError, while the
isolation path still re-raises the ValueError — the failing input. -/
theorem with_loop_error_propagation_paths :
    (with_loop_wrapped Platform.posix (Loop.mk 0 LoopKind.selector false)
          (@raising0 Nat) [] [] = Except.error (Exn.valueError "x")
      ∧ with_loop_wrapped Platform.posix (Loop.mk 0 LoopKind.selector true)
          (@raising0 Nat) [] [] = Except.error (Exn.valueError "x"))
    ∧ (with_loop_wrapped Platform.posix (Loop.mk 0 LoopKind.selector true)
          (@raising Nat) [5] [] = Except.error (Exn.valueError "x")
      ∧ with_loop_wrapped Platform.posix (Loop.mk 0 LoopKind.selector false)
          (@raising Nat) [5] [] = Except.error Exn.typeError) :=
  ⟨⟨rfl, rfl⟩, rfl, rfl⟩

/-- Claim C7 (counterexample): on Windows with a platform default policy
that provides a selector loop — exactly the situation the claim's premise
describes — `new_file_event_loop` returns that selector loop; it does not
construct the proactor-style alternate the claim (following the docstring)
asserts, whereas the spec-modelled behaviour does. -/
theorem new_file_event_loop_windows_counterexample :
    (new_file_event_loop Platform.windows LoopKind.selector
        == LoopKind.proactor) = false
    ∧ (new_file_event_loop_spec Platform.windows LoopKind.selector
        == LoopKind.proactor) = true :=
  ⟨rfl, rfl⟩

/-- Claim C7 (amended): `new_file_event_loop` unconditionally returns the
loop built by `asyncio.new_event_loop()` — the platform default — on every
platform; it never constructs an alternate implementation itself, so a
proactor loop results on Windows only when the platform default already is
one. -/
theorem new_file_event_loop_returns_default (p : Platform) (dk : LoopKind) :
    new_file_event_loop p dk = new_event_loop dk :=
  rfl

/-- Result of one call of the coroutine produced by `sync(async_wrapper)(f)`:
whether the wrap-time executor was invoked at any point during the call,
whether the `done` event ended up set, and the returned value or propagated
exception. -/
structure SyncRun (α : Type) where
  executorInvoked : Bool
  doneSet : Bool
  outcome : Except Exn α

/-- Source `_synced` (the coroutine function returned by `sync(w)(f)`),
collapsed to its sequential effect: it awaits `_wrapped(*args)` directly,
which awaits `f(*args)` — so an exception of `f` propagates with `done`
never set — stores the value in `done.result` and schedules `done.set`
thread-safely; `_synced` then awaits `done.wait()` (the calling loop
delivers the scheduled `set`) and returns `done.result`.  Nothing in the
source body applies the `async_wrapper` executor, so no run ever invokes
it. -/
def sync_synced {α : Type} (f : List α → Except Exn α) (args : List α) :
    SyncRun α :=
  match f args with
  | Except.error e => SyncRun.mk false false (Except.error e)
  | Except.ok v => SyncRun.mk false true (Except.ok v)

/-- Source `sync(async_wrapper)` applied to `f`: the parameter `w` (the
executor, e.g. `gtk_threadsafe`) is bound but never applied inside `_sync`;
the function returned is `_synced`, independent of `w`. -/
def sync_decorate {α β : Type} (w : β) (f : List α → Except Exn α) :
    List α → SyncRun α :=
  fun args =>
    match w with
    | _ => sync_synced f args

/-- Claim C2 (divergence): the coroutine produced by `sync(w)(f)` never
invokes the executor `w` — its behaviour is identical for any two executors
— although it does return exactly `f(*args)`'s outcome.  The claim and
`sync`'s own docstring (`async_wrapper` is the "decorator that will execute
the wrapped function in another thread") say `w` is invoked with the inner
step coroutine. -/
theorem sync_executor_never_invoked {β : Type} (w w2 : β)
    (f : List Nat → Except Exn Nat) (args : List Nat) :
    (sync_decorate w f args).executorInvoked = false
    ∧ sync_decorate w f args = sync_decorate w2 f args
    ∧ (sync_decorate w f args).outcome = f args := by
  refine ⟨?_, rfl, ?_⟩ <;>
    cases hf : f args <;>
      simp [sync_decorate, sync_synced, hf]

/-- State of the `started` signal of a `cancellable`-wrapped function: the
`threading.Event` flag, and the `loop` attribute that `_wrapped` assigns
(absent until the first invocation assigns it). -/
structure StartedState where
  isSet : Bool
  loop : Option Loop
  deriving DecidableEq

/-- The `started` event as created at decoration time by
`threading.Event()`: not set, and no `loop` attribute ever assigned. -/
def started_initial : StartedState := StartedState.mk false none

/-- Effect of a successful `cancel()` call: `_cancel` has been scheduled
thread-safely (via `call_soon_threadsafe`) on the loop with the given
identity. -/
inductive CancelEffect where
  | scheduled (loopId : Nat)
  deriving DecidableEq

/-- Source `_wrapped.cancel`, the lambda
`started.loop.call_soon_threadsafe(_cancel)`: reading the `loop` attribute
of an Event that never had it assigned raises AttributeError; otherwise
`_cancel` is scheduled thread-safely on that loop. -/
def cancellable_cancel (started : StartedState) : Except Exn CancelEffect :=
  match started.loop with
  | none => Except.error (Exn.attributeError "loop")
  | some l => Except.ok (CancelEffect.scheduled l.id)

/-- Boolean test: does this call outcome raise an exception? -/
def raisesExn {β : Type} (r : Except Exn β) : Bool :=
  match r with
  | Except.error _ => true
  | Except.ok _ => false

/-- Claim C3 (counterexample): in the idle state — the wrapped function was
never invoked, so the StartedSignal never fired and no loop was attached —
calling `cancel()` raises (AttributeError on `started.loop`); it is not the
no-op the claim asserts. -/
theorem cancellable_cancel_idle_raises :
    raisesExn (cancellable_cancel started_initial) = true :=
  rfl

/-- Claim C3 (amended): calling `cancel()` in the idle state raises
AttributeError for the missing `loop` attribute of the started Event, and
schedules no cancellation on any loop; callers must wait on the
StartedSignal before `cancel()` is usable. -/
theorem cancellable_cancel_idle_attribute_error :
    cancellable_cancel started_initial
      = Except.error (Exn.attributeError "loop") :=
  rfl

/-- One attempt of the enumeration `asyncio.Task.all_tasks(loop=loop)` in
`_cancel`'s retry loop: `none` models the attempt raising RuntimeError
(such as "set changed size during iteration"), `some snap` a stable
snapshot of the outstanding tasks (by task identity). -/
abbrev EnumAttempt := Option (List Nat)

/-- Source `_cancel` after `current_task` is identified: loop forever —
retry enumeration on each RuntimeError; on the first stable snapshot, stop
and cancel every task in it that is not the current driving task.  A run
whose attempt sequence never succeeds loops forever (`none` here). -/
def cancel_sweep (current : Option Nat) : List EnumAttempt → Option (List Nat)
  | [] => none
  | none :: rest => cancel_sweep current rest
  | some snap :: _ =>
      some (snap.filter (fun t => decide (some t ≠ current)))

/-- Helper: the retry loop ignores any finite run of failed enumeration
attempts. -/
theorem cancel_sweep_append_failures (current : Option Nat)
    (pre rest : List EnumAttempt) (hpre : ∀ x ∈ pre, x = none) :
    cancel_sweep current (pre ++ rest) = cancel_sweep current rest := by
  revert hpre
  induction pre with
  | nil => intro hpre; rfl
  | cons a as ih =>
      intro hpre
      have ha : a = none := hpre a (List.mem_cons_self a as)
      subst ha
      exact ih (fun x hx => hpre x (List.mem_cons_of_mem none hx))

/-- Claim C6: `cancel()` schedules `_cancel` on the target loop with the
thread-safe scheduling primitive; the sweep retries enumeration across any
finite run of transient enumeration failures without propagating them, and
the cancel set of the first stable snapshot is exactly the snapshot minus
the current driving task. -/
theorem cancel_sweep_retries_and_excludes_current (current : Option Nat)
    (pre : List EnumAttempt) (snap : List Nat) (post : List EnumAttempt)
    (hpre : ∀ x ∈ pre, x = none) (started : StartedState) (l : Loop)
    (hl : started.loop = some l) :
    cancel_sweep current (pre ++ some snap :: post)
        = some (snap.filter (fun t => decide (some t ≠ current)))
    ∧ cancellable_cancel started = Except.ok (CancelEffect.scheduled l.id) := by
  constructor
  · rw [cancel_sweep_append_failures current pre (some snap :: post) hpre]
    rfl
  · cases started with
    | mk s lp =>
        cases lp with
        | none => exact Option.noConfusion hl
        | some l2 =>
            have he : l2 = l := by
              injection hl
            subst he
            rfl

/-- Witness for C6 at a concrete input: two failed enumeration attempts are
retried, the stable snapshot `[0, 1, 2]` is swept with current task 1
protected, and `cancel()` on a started signal bound to loop 7 schedules
`_cancel` there. -/
theorem cancel_sweep_retries_and_excludes_current_witness :
    (∀ x ∈ ([none, none] : List EnumAttempt), x = none)
    ∧ (cancel_sweep (some 1) ([none, none] ++ some [0, 1, 2] :: [])
          = some (List.filter (fun t => decide (some t ≠ some 1)) [0, 1, 2])
      ∧ cancellable_cancel
            (StartedState.mk true (some (Loop.mk 7 LoopKind.selector false)))
          = Except.ok (CancelEffect.scheduled 7)) :=
  ⟨by decide,
    cancel_sweep_retries_and_excludes_current (some 1) [none, none] [0, 1, 2] []
      (by decide) (StartedState.mk true (some (Loop.mk 7 LoopKind.selector false)))
      (Loop.mk 7 LoopKind.selector false) rfl⟩

/-- Statement order of `cancellable`'s `_wrapped` body: `started.clear()`;
`started.loop = ensure_event_loop()`; `started.set()`; then
`run_until_complete(f(*args, **kwargs))`. -/
def cancellable_wrapped_trace : List Ev :=
  [Ev.clearStarted, Ev.attachLoop, Ev.setStarted, Ev.runCoroStart]

/-- Claim C8: in `with_loop`'s isolation path the writes of
`finished.result` and `finished.error` occur strictly before `finished.set()`
(whatever the coroutine's outcome), and the final state indeed has the flag
set; in a `cancellable` invocation the loop reference is attached to the
started signal strictly before the signal is set, which is strictly before
the coroutine starts running. -/
theorem signal_payload_written_before_flag_set (out : Except Exn Nat) :
    ((with_loop_run out).2.indexOf Ev.writeResult
        < (with_loop_run out).2.indexOf Ev.setFlag
      ∧ (with_loop_run out).2.indexOf Ev.writeError
        < (with_loop_run out).2.indexOf Ev.setFlag
      ∧ (with_loop_run out).1.flag = true)
    ∧ (cancellable_wrapped_trace.indexOf Ev.attachLoop
        < cancellable_wrapped_trace.indexOf Ev.setStarted
      ∧ cancellable_wrapped_trace.indexOf Ev.setStarted
        < cancellable_wrapped_trace.indexOf Ev.runCoroStart) := by
  cases out <;> dsimp only [with_loop_run] <;> decide

/-- Allocation state for signal objects: `next` is the identity the next
created Event receives; creating an Event increments it. -/
structure Alloc where
  next : Nat
  deriving DecidableEq

/-- Creation of a fresh Event object (`threading.Event()` or
`asyncio.Event()`): returns its identity and the advanced allocator. -/
def newEvent (a : Alloc) : Nat × Alloc :=
  (a.next, Alloc.mk (a.next + 1))

/-- Source `cancellable(f)`: `started = threading.Event()` runs once, at
decoration time. -/
def cancellable_decorate (a : Alloc) : Nat × Alloc :=
  newEvent a

/-- The Event one invocation of a `cancellable`-wrapped function clears,
attaches a loop to, and sets: always the decoration-time `started`; the
invocation allocates no Event of its own. -/
def cancellable_invoke_event (startedId : Nat) (a : Alloc) : Nat × Alloc :=
  (startedId, a)

/-- Source `sync(w)(f)`: `done = asyncio.Event()` runs once, when `_sync`
wraps `f`. -/
def sync_decorate_event (a : Alloc) : Nat × Alloc :=
  newEvent a

/-- The Event one call of `_synced` stores the result on and waits on:
always the wrap-time `done`; the call allocates no Event of its own (and
never clears the shared one). -/
def sync_invoke_event (doneId : Nat) (a : Alloc) : Nat × Alloc :=
  (doneId, a)

/-- Source `with_loop.wrapped` isolation path: `finished =
threading.Event()` runs inside the call, so each invocation allocates a
fresh Event. -/
def with_loop_invoke_event (a : Alloc) : Nat × Alloc :=
  newEvent a

/-- Claim C9 (counterexample): two successive invocations of the same
`cancellable`-wrapped function use the identical `started` Event (identity
0, allocated at decoration time), and two successive calls of the same
`sync`-bridged function use the identical `done` Event — distinct
invocations share the signal object, contradicting the claim. -/
theorem shared_signal_counterexample :
    (cancellable_invoke_event (cancellable_decorate (Alloc.mk 0)).1
        (cancellable_invoke_event (cancellable_decorate (Alloc.mk 0)).1
          (cancellable_decorate (Alloc.mk 0)).2).2).1
      = (cancellable_invoke_event (cancellable_decorate (Alloc.mk 0)).1
          (cancellable_decorate (Alloc.mk 0)).2).1
    ∧ (sync_invoke_event (sync_decorate_event (Alloc.mk 0)).1
        (sync_invoke_event (sync_decorate_event (Alloc.mk 0)).1
          (sync_decorate_event (Alloc.mk 0)).2).2).1
      = (sync_invoke_event (sync_decorate_event (Alloc.mk 0)).1
          (sync_decorate_event (Alloc.mk 0)).2).1 :=
  ⟨rfl, rfl⟩

/-- Claim C9 (amended): the `started` Event of `cancellable` and the `done`
Event of `sync` are created once per decoration and reused unchanged by
every invocation (no allocation at invocation time); only `with_loop`'s
completion signal is created per invocation — each call allocates a fresh
Event whose identity is the successor of the previous allocation. -/
theorem signals_created_per_decoration_not_per_invocation
    (sid did : Nat) (a b c : Alloc) :
    cancellable_invoke_event sid a = (sid, a)
    ∧ sync_invoke_event did b = (did, b)
    ∧ ((with_loop_invoke_event c).1 = c.next
      ∧ (with_loop_invoke_event (with_loop_invoke_event c).2).1 = c.next + 1) :=
  ⟨rfl, rfl, rfl, rfl⟩

end AsyncioHelpers
